import Mathlib

/-!
Verification of the HackEEG client session layer (`src/client/mod.rs`).

The embedding models the serial transport as an explicit `World`:
a log of the byte strings successfully written so far, plus two
scripts that drive the nondeterminism of the external device — a
fault script for write attempts and a script of incoming lines for
read attempts.  Every client operation is a pure function from a
`World` (and, for `ensure_mode`, a client record holding the current
`Mode`) to a result paired with the updated `World`.

Deserialization (`serde`) is external to the repository; the generic
bound `T: DeserializeOwned` of `execute_json_cmd` is embedded as an
explicit parse function `String → Option T`, quantified in the
theorems.
-/

namespace HackEEG

/-- Modelled from the spec: the `Mode` enum lives in `src/client/modes.rs`,
which is not under `src/`; the spec (§3) and the `match` arms of
`ensure_mode` in `src/client/mod.rs` give its four variants
Unknown, Text, JsonLines, MsgPack. -/
inductive Mode where
  | Unknown : Mode
  | Text : Mode
  | JsonLines : Mode
  | MsgPack : Mode
deriving DecidableEq, Repr

/-- Modelled from the spec: the error enum lives in `src/client/err.rs`,
which is not under `src/`.  `mod.rs` itself matches on
`ClientError::DeserializeError(_)` and converts `io::Error` and
`serde_json::Error` with `?`; the spec (§7) fixes the taxonomy as a
transport error versus a deserialization error. -/
inductive ClientError where
  | TransportError : ClientError
  | DeserializeError : ClientError
deriving DecidableEq, Repr

/-- Modelled from the spec: the `NoOp` response structure lives in
`src/client/commands.rs`, which is not under `src/`; `mod.rs` lines
69-71 destructure it into `status_code` and `status_text`, matching
the spec's generic status response shape (§3, §6). -/
structure NoOp where
  status_code : Int
  status_text : String
deriving DecidableEq, Repr

/-- The session state owned by the client (`HackEEGClient.mode` in
`src/client/mod.rs`); the transport handle is modelled separately as
the `World`. -/
structure HackEEGClient where
  mode : Mode
deriving DecidableEq, Repr

/-- Outcome of running a client operation that may panic
(`unreachable!` in the Rust source) in addition to returning
`Ok`/`Err`. -/
inductive RunResult (α : Type) where
  | ok : α → RunResult α
  | err : ClientError → RunResult α
  | panicked : RunResult α
deriving DecidableEq, Repr

/-- The transport, as seen by the client: the log of successfully
written strings, a script telling each successive write attempt
whether it fails with an I/O error, and a script of outcomes for each
successive `read_response` call (`none` = I/O failure, `some s` = the
line `s` was read).  An exhausted write script means writes succeed; an
exhausted read script means the read times out (I/O failure). -/
structure World where
  written : List String
  writeFaults : List Bool
  reads : List (Option String)
deriving DecidableEq, Repr

/-- One `port.write(s)` call: on success the string is appended to the
log, on an I/O fault nothing is written. -/
def writeStep (s : String) (w : World) : Except Unit Unit × World :=
  match w.writeFaults with
  | [] => (Except.ok (), { w with written := w.written ++ [s] })
  | f :: rest =>
    if f then
      (Except.error (), { w with writeFaults := rest })
    else
      (Except.ok (), { w with written := w.written ++ [s], writeFaults := rest })

/- JSON string values, arrays and objects, mirroring the
`serde_json::Value` shapes produced by the `json!` macro in
`json_cmd` (`mod.rs` lines 187-193). -/
mutual
inductive JValue where
  | str : String → JValue
  | arr : JList → JValue
  | obj : JFields → JValue
inductive JList where
  | nil : JList
  | cons : JValue → JList → JList
inductive JFields where
  | nil : JFields
  | cons : String → JValue → JFields → JFields
end

/-- Hex digits as `serde_json` emits them in `\u00XX` escapes
(lowercase). -/
def hexDigit (n : Nat) : Char :=
  if n < 10 then Char.ofNat (48 + n) else Char.ofNat (87 + n)

/-- How `serde_json`'s compact serializer escapes one character inside
a JSON string: quote and backslash get a backslash escape, the five
control characters with short forms use them, the remaining control
characters below 0x20 become `\u00XX`, and everything else is emitted
verbatim. -/
def escapeJsonChar (c : Char) : String :=
  if c = '\x22' then "\\\x22"
  else if c = '\\' then "\\\\"
  else if c = '\x08' then "\\b"
  else if c = '\x09' then "\\t"
  else if c = '\x0a' then "\\n"
  else if c = '\x0c' then "\\f"
  else if c = '\x0d' then "\\r"
  else if c.toNat < 0x20 then
    String.mk ['\\', 'u', '0', '0', hexDigit (c.toNat / 16), hexDigit (c.toNat % 16)]
  else String.mk [c]

/-- Escape a whole string for JSON output. -/
def jsonEscape (s : String) : String :=
  String.join (s.toList.map escapeJsonChar)

/- Compact serialization of a JSON value, as
`serde_json::Value::to_string` produces it: no whitespace, string
keys and values quoted and escaped with the same string escaper, `,`
between elements and fields, `:` between key and value. -/
mutual
def serializeVal : JValue → String
  | JValue.str s => "\x22" ++ jsonEscape s ++ "\x22"
  | JValue.arr xs => "[" ++ serializeList xs ++ "]"
  | JValue.obj fs => "\x7b" ++ serializeFields fs ++ "\x7d"
def serializeList : JList → String
  | JList.nil => ""
  | JList.cons v JList.nil => serializeVal v
  | JList.cons v vs => serializeVal v ++ "," ++ serializeList vs
def serializeFields : JFields → String
  | JFields.nil => ""
  | JFields.cons k v JFields.nil => "\x22" ++ jsonEscape k ++ "\x22:" ++ serializeVal v
  | JFields.cons k v fs =>
    "\x22" ++ jsonEscape k ++ "\x22:" ++ serializeVal v ++ "," ++ serializeFields fs
end

/-- `json_cmd` (`mod.rs` lines 187-193): build the value
`json!({"COMMAND": cmd, "PARAMETERS": []})` and serialize it.
`serde_json`'s default map keeps keys sorted; COMMAND before
PARAMETERS is already the sorted (and the insertion) order. -/
def json_cmd (cmd : String) : String :=
  serializeVal (JValue.obj
    (JFields.cons "COMMAND" (JValue.str cmd)
      (JFields.cons "PARAMETERS" (JValue.arr JList.nil) JFields.nil)))

/-- `json_cmd_line` (`mod.rs` lines 195-197): the serialized command
followed by the CRLF terminator. -/
def json_cmd_line (cmd : String) : String :=
  json_cmd cmd ++ "\r\n"

/-- `send_json_cmd` (`mod.rs` lines 90-93): one write of the framed
JSON command line. -/
def send_json_cmd (cmd : String) (w : World) : Except Unit Unit × World :=
  writeStep (json_cmd_line cmd) w

/-- `send_text_cmd` (`mod.rs` lines 95-101): one write of the bare
command keyword followed by a newline. -/
def send_text_cmd (cmd : String) (w : World) : Except Unit Unit × World :=
  writeStep (cmd ++ "\n") w

/-- `read_response` (`mod.rs` lines 103-110): read one line from the
transport; the script supplies the outcome. -/
def read_response (w : World) : Except Unit String × World :=
  match w.reads with
  | [] => (Except.error (), w)
  | r :: rest =>
    match r with
    | none => (Except.error (), { w with reads := rest })
    | some s => (Except.ok s, { w with reads := rest })

/-- `execute_json_cmd` (`mod.rs` lines 115-130): send the JSON
command, read one response line, deserialize it as `T`.  The `parse`
argument embeds the `DeserializeOwned` instance for `T`; per the spec
(§7) I/O failures become the transport error and a failed parse the
deserialization error. -/
def execute_json_cmd {T : Type} (parse : String → Option T) (cmd : String) (w : World) :
    Except ClientError T × World :=
  match send_json_cmd cmd w with
  | (Except.error _, w1) => (Except.error ClientError.TransportError, w1)
  | (Except.ok _, w1) =>
    match read_response w1 with
    | (Except.error _, w2) => (Except.error ClientError.TransportError, w2)
    | (Except.ok resp, w2) =>
      match parse resp with
      | none => (Except.error ClientError.DeserializeError, w2)
      | some t => (Except.ok t, w2)

/-- `noop` (`mod.rs` lines 65-76): execute the `nop` JSON command; a
successful parse yields `true`, a deserialization failure is
downgraded to `false`, any other error propagates. -/
def noop (p : String → Option NoOp) (w : World) : Except ClientError Bool × World :=
  match execute_json_cmd p "nop" w with
  | (Except.ok _, w1) => (Except.ok true, w1)
  | (Except.error ClientError.DeserializeError, w1) => (Except.ok false, w1)
  | (Except.error e, w1) => (Except.error e, w1)

/-- The inner `match desired_mode { ... match self.mode { ... } }` of
`ensure_mode` (`mod.rs` lines 142-176), taken in the branch where the
current and desired modes differ: issue the transition's command
sequence, short-circuiting on the first error; the `unreachable!`
arms panic. -/
def mode_transition (p : String → Option NoOp) (desired current : Mode) (w : World) :
    RunResult Unit × World :=
  match desired with
  | Mode.Text =>
    match current with
    | Mode.JsonLines =>
      match send_text_cmd "jsonlines" w with
      | (Except.error _, w1) => (RunResult.err ClientError.TransportError, w1)
      | (Except.ok _, w1) => (RunResult.ok (), w1)
    | Mode.MsgPack =>
      match send_text_cmd "jsonlines" w with
      | (Except.error _, w1) => (RunResult.err ClientError.TransportError, w1)
      | (Except.ok _, w1) =>
        match send_text_cmd "messagepack" w1 with
        | (Except.error _, w2) => (RunResult.err ClientError.TransportError, w2)
        | (Except.ok _, w2) => (RunResult.ok (), w2)
    | _ => (RunResult.panicked, w)
  | Mode.JsonLines =>
    match current with
    | Mode.MsgPack =>
      match send_text_cmd "messagepack" w with
      | (Except.error _, w1) => (RunResult.err ClientError.TransportError, w1)
      | (Except.ok _, w1) => (RunResult.ok (), w1)
    | Mode.Text | Mode.Unknown =>
      match send_json_cmd "stop" w with
      | (Except.error _, w1) => (RunResult.err ClientError.TransportError, w1)
      | (Except.ok _, w1) =>
        match send_json_cmd "sdatac" w1 with
        | (Except.error _, w2) => (RunResult.err ClientError.TransportError, w2)
        | (Except.ok _, w2) =>
          match send_text_cmd "jsonlines" w2 with
          | (Except.error _, w3) => (RunResult.err ClientError.TransportError, w3)
          | (Except.ok _, w3) =>
            match noop p w3 with
            | (Except.error e, w4) => (RunResult.err e, w4)
            | (Except.ok _, w4) => (RunResult.ok (), w4)
    | _ => (RunResult.panicked, w)
  | Mode.MsgPack =>
    match current with
    | Mode.JsonLines =>
      match send_text_cmd "jsonlines" w with
      | (Except.error _, w1) => (RunResult.err ClientError.TransportError, w1)
      | (Except.ok _, w1) => (RunResult.ok (), w1)
    | Mode.Text =>
      match send_json_cmd "text" w with
      | (Except.error _, w1) => (RunResult.err ClientError.TransportError, w1)
      | (Except.ok _, w1) => (RunResult.ok (), w1)
    | _ => (RunResult.panicked, w)
  | Mode.Unknown => (RunResult.panicked, w)

/-- `ensure_mode` (`mod.rs` lines 134-184): when the recorded mode
already equals the desired one, answer `false` without touching the
transport; otherwise run the transition sequence and, only if it all
succeeded, record the desired mode and answer `true`. -/
def ensure_mode (p : String → Option NoOp) (desired_mode : Mode) (c : HackEEGClient)
    (w : World) : RunResult Bool × HackEEGClient × World :=
  if c.mode ≠ desired_mode then
    match mode_transition p desired_mode c.mode w with
    | (RunResult.ok _, w1) => (RunResult.ok true, { c with mode := desired_mode }, w1)
    | (RunResult.err e, w1) => (RunResult.err e, c, w1)
    | (RunResult.panicked, w1) => (RunResult.panicked, c, w1)
  else
    (RunResult.ok false, c, w)

/-- `HackEEGClient::new` (`mod.rs` lines 34-46): open the port (the
`openOk` flag embeds whether `serialport::open_with_settings`
succeeds), build the client with mode `Unknown`, call
`ensure_mode(JsonLines)` and DISCARD its `Result` (line 43 has no `?`
and no `unwrap`), then return the client.  A panic inside
`ensure_mode` would still abort `new`; an `Err` from it is lost. -/
def new (p : String → Option NoOp) (openOk : Bool) (w : World) :
    RunResult HackEEGClient × World :=
  if openOk then
    match ensure_mode p Mode.JsonLines { mode := Mode.Unknown } w with
    | (RunResult.panicked, _, w1) => (RunResult.panicked, w1)
    | (_, c, w1) => (RunResult.ok c, w1)
  else
    (RunResult.err ClientError.TransportError, w)

/-- The transition table of spec §4.1, keyed by (current, desired),
as the exact byte strings the table says must reach the transport:
text commands are the keyword plus `\n`, JSON commands are the framed
`json_cmd_line`; the Text/Unknown → JsonLines row ends with the
no-op probe's JSON command. -/
def specTransitionWrites : Mode → Mode → List String
  | Mode.JsonLines, Mode.Text => ["jsonlines\n"]
  | Mode.MsgPack, Mode.Text => ["jsonlines\n", "messagepack\n"]
  | Mode.MsgPack, Mode.JsonLines => ["messagepack\n"]
  | Mode.Text, Mode.JsonLines =>
    [json_cmd_line "stop", json_cmd_line "sdatac", "jsonlines\n", json_cmd_line "nop"]
  | Mode.Unknown, Mode.JsonLines =>
    [json_cmd_line "stop", json_cmd_line "sdatac", "jsonlines\n", json_cmd_line "nop"]
  | Mode.JsonLines, Mode.MsgPack => ["jsonlines\n"]
  | Mode.Text, Mode.MsgPack => [json_cmd_line "text"]
  | _, _ => []

/-- The wire line spec §4.2 prescribes for `send_json_command`: the
serialized object with COMMAND mapped to the name and PARAMETERS
mapped to the empty list, then CRLF. -/
def spec_json_cmd_line (name : String) : String :=
  "\x7b\x22COMMAND\x22:\x22" ++ jsonEscape name ++ "\x22,\x22PARAMETERS\x22:[]\x7d\r\n"

lemma jsonEscape_COMMAND : jsonEscape "COMMAND" = "COMMAND" := by decide

lemma jsonEscape_PARAMETERS : jsonEscape "PARAMETERS" = "PARAMETERS" := by decide

lemma json_cmd_line_eq_spec (cmd : String) : json_cmd_line cmd = spec_json_cmd_line cmd := by
  apply String.ext
  simp only [json_cmd_line, json_cmd, spec_json_cmd_line, serializeVal, serializeFields,
    serializeList, jsonEscape_COMMAND, jsonEscape_PARAMETERS, String.data_append,
    List.append_assoc, List.cons_append, List.nil_append]

lemma writeStep_ok (s : String) (w : World) (u : Unit) (w1 : World)
    (h : writeStep s w = (Except.ok u, w1)) : w1.written = w.written ++ [s] := by
  unfold writeStep at h
  split at h
  · simp only [Prod.mk.injEq] at h
    rw [← h.2]
  · split at h
    · simp at h
    · simp only [Prod.mk.injEq] at h
      rw [← h.2]

lemma read_response_written (w : World) (r : Except Unit String) (w1 : World)
    (h : read_response w = (r, w1)) : w1.written = w.written := by
  unfold read_response at h
  split at h
  · simp only [Prod.mk.injEq] at h
    rw [← h.2]
  · split at h <;>
    · simp only [Prod.mk.injEq] at h
      rw [← h.2]

lemma execute_json_cmd_written {T : Type} (parse : String → Option T) (cmd : String)
    (w : World) (r : Except ClientError T) (w1 : World)
    (h : execute_json_cmd parse cmd w = (r, w1))
    (hr : r ≠ Except.error ClientError.TransportError) :
    w1.written = w.written ++ [json_cmd_line cmd] := by
  unfold execute_json_cmd at h
  split at h
  case _ e w2 heq =>
    simp only [Prod.mk.injEq] at h
    exact absurd h.1.symm hr
  case _ u w2 heq =>
    have hw2 : w2.written = w.written ++ [json_cmd_line cmd] :=
      writeStep_ok _ _ _ _ heq
    split at h
    case _ e w3 heq2 =>
      simp only [Prod.mk.injEq] at h
      exact absurd h.1.symm hr
    case _ resp w3 heq2 =>
      have hw3 : w3.written = w2.written := read_response_written _ _ _ heq2
      split at h <;>
      · simp only [Prod.mk.injEq] at h
        rw [← h.2, hw3, hw2]

lemma noop_written (p : String → Option NoOp) (w : World) (b : Bool) (w1 : World)
    (h : noop p w = (Except.ok b, w1)) :
    w1.written = w.written ++ [json_cmd_line "nop"] := by
  unfold noop at h
  split at h
  case _ v w2 heq =>
    simp only [Prod.mk.injEq] at h
    rw [← h.2]
    exact execute_json_cmd_written _ _ _ _ _ heq (by simp)
  case _ w2 heq =>
    simp only [Prod.mk.injEq] at h
    rw [← h.2]
    exact execute_json_cmd_written _ _ _ _ _ heq (by simp)
  case _ e w2 hne heq =>
    simp at h

lemma send_text_cmd_ok (cmd : String) (w : World) (u : Unit) (w1 : World)
    (h : send_text_cmd cmd w = (Except.ok u, w1)) : w1.written = w.written ++ [cmd ++ "\n"] :=
  writeStep_ok _ _ _ _ h

lemma send_json_cmd_ok (cmd : String) (w : World) (u : Unit) (w1 : World)
    (h : send_json_cmd cmd w = (Except.ok u, w1)) :
    w1.written = w.written ++ [json_cmd_line cmd] :=
  writeStep_ok _ _ _ _ h

lemma mode_transition_ok_written (p : String → Option NoOp) (d cur : Mode) (w : World)
    (u : Unit) (w1 : World) (h : mode_transition p d cur w = (RunResult.ok u, w1)) :
    w1.written = w.written ++ specTransitionWrites cur d := by
  cases d with
  | Unknown => simp [mode_transition] at h
  | Text =>
    cases cur with
    | Unknown => simp [mode_transition] at h
    | Text => simp [mode_transition] at h
    | JsonLines =>
      simp only [mode_transition] at h
      split at h
      · simp at h
      case _ u2 w2 heq =>
        simp only [Prod.mk.injEq] at h
        rw [← h.2, send_text_cmd_ok _ _ _ _ heq]
        rfl
    | MsgPack =>
      simp only [mode_transition] at h
      split at h
      · simp at h
      case _ u2 w2 heq2 =>
        split at h
        · simp at h
        case _ u3 w3 heq3 =>
          simp only [Prod.mk.injEq] at h
          rw [← h.2, send_text_cmd_ok _ _ _ _ heq3, send_text_cmd_ok _ _ _ _ heq2]
          simp [specTransitionWrites]
  | JsonLines =>
    cases cur with
    | JsonLines => simp [mode_transition] at h
    | MsgPack =>
      simp only [mode_transition] at h
      split at h
      · simp at h
      case _ u2 w2 heq =>
        simp only [Prod.mk.injEq] at h
        rw [← h.2, send_text_cmd_ok _ _ _ _ heq]
        rfl
    | Text =>
      simp only [mode_transition] at h
      split at h
      · simp at h
      case _ u2 w2 heq2 =>
        split at h
        · simp at h
        case _ u3 w3 heq3 =>
          split at h
          · simp at h
          case _ u4 w4 heq4 =>
            split at h
            · simp at h
            case _ b w5 heq5 =>
              simp only [Prod.mk.injEq] at h
              rw [← h.2, noop_written _ _ _ _ heq5, send_text_cmd_ok _ _ _ _ heq4,
                send_json_cmd_ok _ _ _ _ heq3, send_json_cmd_ok _ _ _ _ heq2]
              simp [specTransitionWrites]
    | Unknown =>
      simp only [mode_transition] at h
      split at h
      · simp at h
      case _ u2 w2 heq2 =>
        split at h
        · simp at h
        case _ u3 w3 heq3 =>
          split at h
          · simp at h
          case _ u4 w4 heq4 =>
            split at h
            · simp at h
            case _ b w5 heq5 =>
              simp only [Prod.mk.injEq] at h
              rw [← h.2, noop_written _ _ _ _ heq5, send_text_cmd_ok _ _ _ _ heq4,
                send_json_cmd_ok _ _ _ _ heq3, send_json_cmd_ok _ _ _ _ heq2]
              simp [specTransitionWrites]
  | MsgPack =>
    cases cur with
    | Unknown => simp [mode_transition] at h
    | MsgPack => simp [mode_transition] at h
    | JsonLines =>
      simp only [mode_transition] at h
      split at h
      · simp at h
      case _ u2 w2 heq =>
        simp only [Prod.mk.injEq] at h
        rw [← h.2, send_text_cmd_ok _ _ _ _ heq]
        rfl
    | Text =>
      simp only [mode_transition] at h
      split at h
      · simp at h
      case _ u2 w2 heq =>
        simp only [Prod.mk.injEq] at h
        rw [← h.2, send_json_cmd_ok _ _ _ _ heq]
        rfl

lemma ensure_mode_ok_mode (p : String → Option NoOp) (d : Mode) (c : HackEEGClient)
    (w : World) (b : Bool) (c1 : HackEEGClient) (w1 : World)
    (h : ensure_mode p d c w = (RunResult.ok b, c1, w1)) : c1.mode = d := by
  unfold ensure_mode at h
  split at h
  · split at h
    case _ u w2 heq =>
      simp only [Prod.mk.injEq] at h
      rw [← h.2.1]
    case _ e w2 heq => simp at h
    case _ w2 heq => simp at h
  case _ hc =>
    simp only [ne_eq, not_not] at hc
    simp only [Prod.mk.injEq] at h
    rw [← h.2.1, hc]

lemma ensure_mode_ne_ok (p : String → Option NoOp) (d : Mode) (c : HackEEGClient)
    (w : World) (b : Bool) (c1 : HackEEGClient) (w1 : World) (hne : c.mode ≠ d)
    (h : ensure_mode p d c w = (RunResult.ok b, c1, w1)) :
    b = true ∧ c1 = { c with mode := d } ∧
      ∃ u, mode_transition p d c.mode w = (RunResult.ok u, w1) := by
  unfold ensure_mode at h
  rw [if_pos hne] at h
  split at h
  case _ u w2 heq =>
    simp only [Prod.mk.injEq, RunResult.ok.injEq] at h
    exact ⟨h.1.symm, h.2.1.symm, u, by rw [heq, h.2.2]⟩
  case _ e w2 heq => simp at h
  case _ w2 heq => simp at h

lemma ensure_mode_same (p : String → Option NoOp) (d : Mode) (c : HackEEGClient)
    (w : World) (hc : c.mode = d) :
    ensure_mode p d c w = (RunResult.ok false, c, w) := by
  unfold ensure_mode
  rw [if_neg]
  simp [hc]

lemma ensure_mode_err_client (p : String → Option NoOp) (d : Mode) (c : HackEEGClient)
    (w : World) (e : ClientError) (c1 : HackEEGClient) (w1 : World)
    (h : ensure_mode p d c w = (RunResult.err e, c1, w1)) : c1 = c := by
  unfold ensure_mode at h
  split at h
  · split at h
    case _ u w2 heq => simp at h
    case _ e2 w2 heq =>
      simp only [Prod.mk.injEq] at h
      rw [← h.2.1]
    case _ w2 heq => simp at h
  · simp at h

lemma ensure_mode_panicked_client (p : String → Option NoOp) (d : Mode) (c : HackEEGClient)
    (w : World) (c1 : HackEEGClient) (w1 : World)
    (h : ensure_mode p d c w = (RunResult.panicked, c1, w1)) : c1 = c := by
  unfold ensure_mode at h
  split at h
  · split at h
    case _ u w2 heq => simp at h
    case _ e2 w2 heq => simp at h
    case _ w2 heq =>
      simp only [Prod.mk.injEq] at h
      rw [← h.2.1]
  · simp at h

lemma ensure_mode_ok_false (p : String → Option NoOp) (d : Mode) (c : HackEEGClient)
    (w : World) (c1 : HackEEGClient) (w1 : World)
    (h : ensure_mode p d c w = (RunResult.ok false, c1, w1)) :
    c1 = c ∧ c.mode = d ∧ w1 = w := by
  unfold ensure_mode at h
  split at h
  · split at h
    case _ u w2 heq => simp at h
    case _ e2 w2 heq => simp at h
    case _ w2 heq => simp at h
  case _ hc =>
    simp only [ne_eq, not_not] at hc
    simp only [Prod.mk.injEq] at h
    exact ⟨h.2.1.symm, hc, h.2.2.symm⟩

/-- Claim C1: for every ordered pair of distinct known modes
(current, desired), a successful `ensure_mode(desired)` call from
`current` has written to the transport exactly the command sequence
of spec §4.1's transition table, in order and with no other writes,
has recorded the desired mode, and has reported that a transition was
performed. -/
theorem ensure_mode_transition_table (p : String → Option NoOp) (cur des : Mode)
    (w : World) (r : Bool) (c1 : HackEEGClient) (w1 : World)
    (_hcur : cur ≠ Mode.Unknown) (_hdes : des ≠ Mode.Unknown) (hne : cur ≠ des)
    (h : ensure_mode p des { mode := cur } w = (RunResult.ok r, c1, w1)) :
    w1.written = w.written ++ specTransitionWrites cur des ∧ c1.mode = des ∧ r = true := by
  obtain ⟨hr, hc1, u, hmt⟩ := ensure_mode_ne_ok p des { mode := cur } w r c1 w1 hne h
  exact ⟨mode_transition_ok_written p des cur w u w1 hmt,
    ensure_mode_ok_mode p des { mode := cur } w r c1 w1 h, hr⟩

/-- Witness for claim C1 at the pair JsonLines → Text on an initially
empty transport. -/
theorem ensure_mode_transition_table_witness :
    (⟨["jsonlines\n"], [], []⟩ : World).written =
      ([] : List String) ++ specTransitionWrites Mode.JsonLines Mode.Text ∧
    (⟨Mode.Text⟩ : HackEEGClient).mode = Mode.Text ∧ true = true :=
  ensure_mode_transition_table (fun _ => none) Mode.JsonLines Mode.Text ⟨[], [], []⟩ true
    ⟨Mode.Text⟩ ⟨["jsonlines\n"], [], []⟩ (by decide) (by decide) (by decide) rfl

/-- Claim C2: whenever `ensure_mode(desired)` returns `Ok`, from any
starting state, the session's recorded mode afterwards equals the
desired mode. -/
theorem ensure_mode_success_records_mode (p : String → Option NoOp) (d : Mode)
    (c : HackEEGClient) (w : World) (b : Bool) (c1 : HackEEGClient) (w1 : World)
    (h : ensure_mode p d c w = (RunResult.ok b, c1, w1)) : c1.mode = d :=
  ensure_mode_ok_mode p d c w b c1 w1 h

/-- Witness for claim C2: a call that was already in the desired mode
still ends with the desired mode recorded. -/
theorem ensure_mode_success_records_mode_witness :
    (⟨Mode.Text⟩ : HackEEGClient).mode = Mode.Text :=
  ensure_mode_success_records_mode (fun _ => none) Mode.Text ⟨Mode.Text⟩ ⟨[], [], []⟩ false
    ⟨Mode.Text⟩ ⟨[], [], []⟩ rfl

/-- Claim C3 (failing input): `new` opens the port successfully, the
very first bootstrap write fails, and `new` nevertheless returns `Ok`
with the session still recorded in mode `Unknown`, because line 43 of
`mod.rs` discards the `Result` of `ensure_mode(JsonLines)`.  This
contradicts the claim that an `Ok` from `new` implies recorded mode
JsonLines. -/
theorem new_swallows_bootstrap_failure :
    new (fun _ => none) true ⟨[], [true], []⟩ =
      (RunResult.ok { mode := Mode.Unknown }, ⟨[], [], []⟩) := rfl

/-- Claim C4: from mode `Unknown`, `ensure_mode(JsonLines)` writes the
JSON `stop`, the JSON `sdatac`, the text `jsonlines` and the no-op's
JSON command, in that order; even when the probe's response line fails
to parse as `NoOp`, the call returns `Ok(true)` and the recorded mode
ends as JsonLines. -/
theorem ensure_mode_unknown_to_jsonlines (p : String → Option NoOp) (line : String)
    (ws : List String) (hp : p line = none) :
    ensure_mode p Mode.JsonLines { mode := Mode.Unknown } ⟨ws, [], [some line]⟩ =
      (RunResult.ok true, { mode := Mode.JsonLines },
        ⟨ws ++ [json_cmd_line "stop", json_cmd_line "sdatac", "jsonlines\n",
          json_cmd_line "nop"], [], []⟩) := by
  simp [ensure_mode, mode_transition, send_json_cmd, send_text_cmd, writeStep, noop,
    execute_json_cmd, read_response, hp]

/-- Witness for claim C4 with an empty response line that no parse
accepts. -/
theorem ensure_mode_unknown_to_jsonlines_witness :
    ensure_mode (fun _ => none) Mode.JsonLines { mode := Mode.Unknown } ⟨[], [], [some ""]⟩ =
      (RunResult.ok true, { mode := Mode.JsonLines },
        ⟨[] ++ [json_cmd_line "stop", json_cmd_line "sdatac", "jsonlines\n",
          json_cmd_line "nop"], [], []⟩) :=
  ensure_mode_unknown_to_jsonlines (fun _ => none) "" [] rfl

/-- Counterexample to claim C5: with the recorded mode `Unknown`,
`ensure_mode(Unknown)` takes the `self.mode == desired_mode` branch of
line 136 and returns a normal `Ok(false)` instead of failing
fatally. -/
theorem ensure_mode_unknown_target_ok_counterexample :
    ensure_mode (fun _ => none) Mode.Unknown { mode := Mode.Unknown } ⟨[], [], []⟩ =
      (RunResult.ok false, { mode := Mode.Unknown }, ⟨[], [], []⟩) := rfl

/-- Claim C5 (amended): for every session whose recorded mode is NOT
`Unknown`, `ensure_mode(Unknown)` hits the `unreachable!` arm of line
175 before writing anything: it panics, never returning a normal
result; when the recorded mode is already `Unknown` the call instead
returns `Ok(false)` like any same-mode call. -/
theorem ensure_mode_unknown_target_panics (p : String → Option NoOp) (c : HackEEGClient)
    (w : World) (hc : c.mode ≠ Mode.Unknown) :
    ensure_mode p Mode.Unknown c w = (RunResult.panicked, c, w) := by
  unfold ensure_mode
  rw [if_pos hc]
  simp [mode_transition]

/-- Witness for the amended claim C5 from mode Text. -/
theorem ensure_mode_unknown_target_panics_witness :
    ensure_mode (fun _ => none) Mode.Unknown ⟨Mode.Text⟩ ⟨[], [], []⟩ =
      (RunResult.panicked, ⟨Mode.Text⟩, ⟨[], [], []⟩) :=
  ensure_mode_unknown_target_panics (fun _ => none) ⟨Mode.Text⟩ ⟨[], [], []⟩ (by decide)

/-- Claim C6: the no-op is the sole exception in the deserialization
error taxonomy.  When the response line fails to parse as `NoOp`,
`noop` answers `Ok(false)`; a failing write or a failing read inside
`noop` still surfaces as a transport error; and for any other command
and response type, a response line that does not parse makes
`execute_json_cmd` return the deserialization error (the session mode
is untouched by construction: `execute_json_cmd` neither reads nor
writes the client's mode field, mirroring its `&self` receiver). -/
theorem noop_error_taxonomy (p : String → Option NoOp) (line : String) (ws : List String)
    (bs : List Bool) (rs : List (Option String)) (T : Type) (parse : String → Option T)
    (cmd : String) (hp : p line = none) (hparse : parse line = none) :
    noop p ⟨ws, [], [some line]⟩ =
      (Except.ok false, ⟨ws ++ [json_cmd_line "nop"], [], []⟩) ∧
    noop p ⟨ws, true :: bs, rs⟩ = (Except.error ClientError.TransportError, ⟨ws, bs, rs⟩) ∧
    noop p ⟨ws, [], none :: rs⟩ =
      (Except.error ClientError.TransportError, ⟨ws ++ [json_cmd_line "nop"], [], rs⟩) ∧
    execute_json_cmd parse cmd ⟨ws, [], [some line]⟩ =
      (Except.error ClientError.DeserializeError, ⟨ws ++ [json_cmd_line cmd], [], []⟩) := by
  refine ⟨?_, ?_, ?_, ?_⟩ <;>
    simp [noop, execute_json_cmd, send_json_cmd, writeStep, read_response, hp, hparse]

/-- Witness for claim C6 with an empty response line, a rejecting
parse for `Nat`, and the `stop` command. -/
theorem noop_error_taxonomy_witness :
    noop (fun _ => none) ⟨[], [], [some ""]⟩ =
      (Except.ok false, ⟨[] ++ [json_cmd_line "nop"], [], []⟩) ∧
    noop (fun _ => none) ⟨[], true :: [], []⟩ =
      (Except.error ClientError.TransportError, ⟨[], [], []⟩) ∧
    noop (fun _ => none) ⟨[], [], none :: []⟩ =
      (Except.error ClientError.TransportError, ⟨[] ++ [json_cmd_line "nop"], [], []⟩) ∧
    execute_json_cmd (fun _ => (none : Option Nat)) "stop" ⟨[], [], [some ""]⟩ =
      (Except.error ClientError.DeserializeError, ⟨[] ++ [json_cmd_line "stop"], [], []⟩) :=
  noop_error_taxonomy (fun _ => none) "" [] [] [] Nat (fun _ => none) "stop" rfl rfl

/-- Claim C7: calling `ensure_mode(m)` twice in a row from a different
known starting mode transitions only on the first call: the first call
reports `true`, and the second call reports `false` while leaving the
client and the whole transport state (in particular the write log)
untouched. -/
theorem ensure_mode_idempotent (p : String → Option NoOp) (m : Mode) (c : HackEEGClient)
    (w : World) (b : Bool) (c1 : HackEEGClient) (w1 : World)
    (_hm : m ≠ Mode.Unknown) (_hc : c.mode ≠ Mode.Unknown) (hne : c.mode ≠ m)
    (h : ensure_mode p m c w = (RunResult.ok b, c1, w1)) :
    b = true ∧ ensure_mode p m c1 w1 = (RunResult.ok false, c1, w1) := by
  obtain ⟨hb, _, _⟩ := ensure_mode_ne_ok p m c w b c1 w1 hne h
  exact ⟨hb, ensure_mode_same p m c1 w1 (ensure_mode_ok_mode p m c w b c1 w1 h)⟩

/-- Witness for claim C7: JsonLines → Text, then Text → Text. -/
theorem ensure_mode_idempotent_witness :
    true = true ∧
    ensure_mode (fun _ => none) Mode.Text ⟨Mode.Text⟩ ⟨["jsonlines\n"], [], []⟩ =
      (RunResult.ok false, ⟨Mode.Text⟩, ⟨["jsonlines\n"], [], []⟩) :=
  ensure_mode_idempotent (fun _ => none) Mode.Text ⟨Mode.JsonLines⟩ ⟨[], [], []⟩ true
    ⟨Mode.Text⟩ ⟨["jsonlines\n"], [], []⟩ (by decide) (by decide) (by decide) rfl

/-- Claim C8: `ensure_mode` mutates the recorded mode only on success:
an `Ok(true)` leaves the desired mode recorded, an `Ok(false)` means
the session was already in the desired mode and client and transport
are returned untouched, and on an error (or a panic) the client — and
with it the recorded mode — is exactly the one from before the
call. -/
theorem ensure_mode_mutates_only_on_success (p : String → Option NoOp) (d : Mode)
    (c : HackEEGClient) (w : World) :
    match ensure_mode p d c w with
    | (RunResult.ok true, c1, _) => c1.mode = d
    | (RunResult.ok false, c1, w1) => c1 = c ∧ c.mode = d ∧ w1 = w
    | (RunResult.err _, c1, _) => c1 = c
    | (RunResult.panicked, c1, _) => c1 = c := by
  rcases hres : ensure_mode p d c w with ⟨r, c1, w1⟩
  cases r with
  | ok b =>
    cases b with
    | false => exact ensure_mode_ok_false p d c w c1 w1 hres
    | true => exact ensure_mode_ok_mode p d c w true c1 w1 hres
  | err e => exact ensure_mode_err_client p d c w e c1 w1 hres
  | panicked => exact ensure_mode_panicked_client p d c w c1 w1 hres

/-- Claim C9: on a non-faulting transport, `send_json_cmd` writes
exactly one string — the serialization of the object with COMMAND
mapped to the command name and PARAMETERS mapped to the empty list,
followed by the CRLF terminator — and changes nothing else. -/
theorem send_json_cmd_wire (cmd : String) (w : World) (hw : w.writeFaults = []) :
    send_json_cmd cmd w =
      (Except.ok (), { w with written := w.written ++ [spec_json_cmd_line cmd] }) := by
  unfold send_json_cmd writeStep
  rw [hw]
  simp [json_cmd_line_eq_spec]

/-- Witness for claim C9 with the `stop` command on an empty
transport. -/
theorem send_json_cmd_wire_witness :
    send_json_cmd "stop" ⟨[], [], []⟩ =
      (Except.ok (),
        { (⟨[], [], []⟩ : World) with written := [] ++ [spec_json_cmd_line "stop"] }) :=
  send_json_cmd_wire "stop" ⟨[], [], []⟩ rfl

/-- Claim C10: whenever the no-op's response line parses as a `NoOp`
value, `noop` returns `Ok(true)` no matter which status code and
status text that value carries; a device-reported failure status is
never inspected. -/
theorem noop_ignores_status (p : String → Option NoOp) (line : String) (ws : List String)
    (n : NoOp) (hp : p line = some n) :
    noop p ⟨ws, [], [some line]⟩ =
      (Except.ok true, ⟨ws ++ [json_cmd_line "nop"], [], []⟩) := by
  simp [noop, execute_json_cmd, send_json_cmd, writeStep, read_response, hp]

/-- Witness for claim C10 with a response carrying a failure status
(code 1, text Error). -/
theorem noop_ignores_status_witness :
    noop (fun _ => some ⟨1, "Error"⟩) ⟨[], [], [some ""]⟩ =
      (Except.ok true, ⟨[] ++ [json_cmd_line "nop"], [], []⟩) :=
  noop_ignores_status (fun _ => some ⟨1, "Error"⟩) "" [] ⟨1, "Error"⟩ rfl

end HackEEG
